import Mathlib

/-!
Shallow embedding of
`smart_trailer_use_case/digital_twin_providers/trailer_connected_provider/src/main.rs`:
the discovery-then-register bootstrap sequence of the trailer-connected
digital twin provider.

Network effects (connecting to the Chariott broker, the remote discover
call, connecting to the registry, the remote register call, and binding the
local listen address) are modelled as an explicit environment of oracles;
each Rust function becomes a pure Lean function of that environment.
Machine behaviour of the Rust runtime that the file relies on is recorded
where it matters: a Rust `async fn` future performs no work until it is
polled, and returning `Err` from `main` makes the process print the error
and exit with a non-zero code.
-/

set_option autoImplicit false

namespace TrailerConnectedProvider

/-- Tonic gRPC status codes used by this program (`Status::internal`,
`Status::not_found`, plus a catch-all for codes produced elsewhere). -/
inductive StatusCode where
  | internal
  | not_found
  | other (n : Nat)
deriving DecidableEq, Repr

/-- A tonic `Status`: a code plus a message. -/
structure Status where
  code : StatusCode
  message : String
deriving DecidableEq, Repr

/-- Rust `Status::internal(msg)`. -/
def Status.internal (msg : String) : Status := ⟨StatusCode.internal, msg⟩

/-- Rust `Status::not_found(msg)`. -/
def Status.not_found (msg : String) : Status := ⟨StatusCode.not_found, msg⟩

/-- The service metadata Chariott returns inside a discover response:
`{uri, communication_kind, communication_reference}`. -/
structure ServiceMetadata where
  uri : String
  communication_kind : String
  communication_reference : String
deriving DecidableEq, Repr

/-- Proto message `interfaces::chariott::service_discovery::core::v1::DiscoverRequest`.
The proto field is named `namespace`; that word is a Lean keyword, so the
field is spelled `namespace_` here. -/
structure DiscoverRequest where
  namespace_ : String
  name : String
  version : String
deriving DecidableEq, Repr

/-- The discover response: an optional service (`service` may be absent). -/
structure DiscoverResponse where
  service : Option ServiceMetadata
deriving DecidableEq, Repr

/-- Proto message `interfaces::invehicle_digital_twin::v1::EndpointInfo`. -/
structure EndpointInfo where
  protocol : String
  operations : List String
  uri : String
  context : String
deriving DecidableEq, Repr

/-- Proto message `interfaces::invehicle_digital_twin::v1::EntityAccessInfo`. -/
structure EntityAccessInfo where
  name : String
  id : String
  description : String
  endpoint_info_list : List EndpointInfo
deriving DecidableEq, Repr

/-- Proto message `interfaces::invehicle_digital_twin::v1::RegisterRequest`. -/
structure RegisterRequest where
  entity_access_info_list : List EntityAccessInfo
deriving DecidableEq, Repr

/-! Constants of `main.rs`, lines 22 to 33. -/

def GRPC_PROTOCOL : String := "grpc"

def OPERATION_GET : String := "Get"

def SERVICE_DISCOVERY_URI : String := "http://0.0.0.0:50000"

def PROVIDER_AUTHORITY : String := "0.0.0.0:55000"

def INVEHICLE_DIGITAL_TWIN_SERVICE_NAMESPACE : String := "sdv.ibeji"

def INVEHICLE_DIGITAL_TWIN_SERVICE_NAME : String := "invehicle_digital_twin"

def INVEHICLE_DIGITAL_TWIN_SERVICE_VERSION : String := "1.0"

def INVEHICLE_DIGITAL_TWIN_SERVICE_COMMUNICATION_KIND : String := "grpc+proto"

def INVEHICLE_DIGITAL_TWIN_SERVICE_COMMUNICATION_REFERENCE : String :=
  "https://github.com/eclipse-ibeji/ibeji/blob/main/interfaces/digital_twin/v1/digital_twin.proto"

namespace trailer_v1.trailer.is_trailer_connected

/-- Modelled from the spec: the entity id of the is-trailer-connected
signal. It lives in the `digital_twin_model` crate, which is not under
`src/`; no claim depends on the concrete string value. -/
def ID : String := "dtmi:sdv:trailer:is_trailer_connected;1"

/-- Modelled from the spec: the entity name of the is-trailer-connected
signal (from the `digital_twin_model` crate, not under `src/`; no claim
depends on the concrete string value). -/
def NAME : String := "is_trailer_connected"

/-- Modelled from the spec: the entity description of the
is-trailer-connected signal (from the `digital_twin_model` crate, not under
`src/`; no claim depends on the concrete string value). -/
def DESCRIPTION : String := "Is the trailer connected to the vehicle"

end trailer_v1.trailer.is_trailer_connected

/-- The two network effects `discover_service_using_chariott` performs:
`ServiceRegistryClient::connect` (line 52) and the remote `discover` call
(line 62). An `Except.error` models the Rust call failing with the given
error message (`e.to_string()`). -/
structure ChariottEnv where
  connect : String → Except String Unit
  discover : DiscoverRequest → Except String DiscoverResponse

/-- The error string of `main.rs` line 67. The Rust source passes a plain
string literal (not a `format!` call), so the placeholder text between
braces is part of the message verbatim; `\x27` is an ASCII apostrophe. -/
def NOT_FOUND_MSG : String :=
  "Did not find a service in Chariott with namespace \x27\x7bnamespace\x7d\x27, name \x27\x7bname\x7d\x27 and version \x7bversion\x7d"

/-- The error string of `main.rs` lines 72 to 74, again a plain string
literal whose brace placeholders are verbatim message text. -/
def MISMATCH_MSG : String :=
  "Did not find a service in Chariott with namespace \x27\x7bnamespace\x7d\x27, name \x27\x7bname\x7d\x27 and version \x7bversion\x7d that has communication kind \x27\x7bcommunication_kind\x7d and communication_reference \x27\x7bcommunication_reference\x7d\x27\x27"

/-- The function `discover_service_using_chariott` (`main.rs` lines 44 to 78), line by
line: connect (mapping a failure to `Status::internal`), send the discover
request, map a call failure to `Status::internal`, fail with
`Status::not_found` when the response carries no service, fail with
`Status::not_found` when the communication kind differs AND the
communication reference differs (the Rust `&&` on lines 69 to 71), and
otherwise return the service uri. -/
def discover_service_using_chariott (env : ChariottEnv) (chariott_uri : String)
    (namespace_ : String) (name : String) (version : String)
    (communication_kind : String) (communication_reference : String) :
    Except Status String :=
  match env.connect chariott_uri with
  | Except.error e => Except.error (Status.internal e)
  | Except.ok _ =>
    match env.discover ⟨namespace_, name, version⟩ with
    | Except.error e => Except.error (Status.internal e)
    | Except.ok response =>
      match response.service with
      | none => Except.error (Status.not_found NOT_FOUND_MSG)
      | some service =>
        if service.communication_kind ≠ communication_kind
            ∧ service.communication_reference ≠ communication_reference then
          Except.error (Status.not_found MISMATCH_MSG)
        else
          Except.ok service.uri

/-- The two network effects `register_entity` performs:
`InvehicleDigitalTwinClient::connect` (line 102) and the remote `register`
call (line 108). The register call fails with a tonic `Status`, propagated
unmapped by the `?` on line 108. -/
structure RegistryEnv where
  connect : String → Except String Unit
  register : RegisterRequest → Except Status Unit

/-- The function `register_entity` (`main.rs` lines 85 to 111). The second component of
the result records every remote `register` call the invocation issued, so
batching can be stated: no call is issued when the connect fails, and
exactly one call, carrying the full entity list, is issued otherwise
(whether or not the registry accepts it). -/
def register_entity (env : RegistryEnv) (invehicle_digital_twin_uri : String)
    (provider_uri : String) : Except Status Unit × List RegisterRequest :=
  let is_trailer_connected_endpoint_info : EndpointInfo :=
    { protocol := GRPC_PROTOCOL
      operations := [OPERATION_GET]
      uri := provider_uri
      context := trailer_v1.trailer.is_trailer_connected.ID }
  let entity_access_info : EntityAccessInfo :=
    { name := trailer_v1.trailer.is_trailer_connected.NAME
      id := trailer_v1.trailer.is_trailer_connected.ID
      description := trailer_v1.trailer.is_trailer_connected.DESCRIPTION
      endpoint_info_list := [is_trailer_connected_endpoint_info] }
  match env.connect invehicle_digital_twin_uri with
  | Except.error e => (Except.error (Status.internal e), [])
  | Except.ok _ =>
    let request : RegisterRequest := { entity_access_info_list := [entity_access_info] }
    match env.register request with
    | Except.error s => (Except.error s, [request])
    | Except.ok _ => (Except.ok (), [request])

/-- Observable steps of one run of `main`, in the order they occur. -/
inductive Event where
  | server_future_created (addr : String)
  | discover_invoked (chariott_uri : String) (namespace_ : String) (name : String)
      (version : String) (communication_kind : String) (communication_reference : String)
  | register_invoked (registry_uri : String) (provider_uri : String)
  | remote_register_call (request : RegisterRequest)
  | bind_and_listen (addr : String)
deriving DecidableEq, Repr

/-- The full environment one run of `main` interacts with: the Chariott
broker, the registry, and binding the local listen address (the first thing
the `serve` future does when polled). -/
structure Env where
  chariott : ChariottEnv
  registry : RegistryEnv
  bind : String → Except String Unit

/-- How a run of `main` ends. `serving` means the listener is bound and the
server loop is running: the long-lived Ready state (the `serve` future only
returns on a fatal transport error, so the code after
`server_future.await?` is not reached in this model). `errored` means
`main` returned `Err`, which makes the Rust runtime print the error and
exit the process with a non-zero code. -/
inductive MainOutcome where
  | serving
  | errored (e : Status)
deriving DecidableEq, Repr

/-- The process exit code an outcome produces: a serving process has not
exited; `Err` from a Rust `main` exits with code 1. -/
def MainOutcome.exitCode : MainOutcome → Option Nat
  | MainOutcome.serving => none
  | MainOutcome.errored _ => some 1

/-- The trace of events of a run together with its outcome. -/
structure RunResult where
  events : List Event
  outcome : MainOutcome
deriving DecidableEq, Repr

/-- The provider uri built on `main.rs` line 123:
`format!("http://\x7bPROVIDER_AUTHORITY\x7d")`. -/
def mainProviderUri : String := "http://" ++ PROVIDER_AUTHORITY

/-- The discovery call `main` makes on lines 136 to 144, with the constant
arguments of lines 26 and 29 to 33. -/
def mainDiscover (env : Env) : Except Status String :=
  discover_service_using_chariott env.chariott SERVICE_DISCOVERY_URI
    INVEHICLE_DIGITAL_TWIN_SERVICE_NAMESPACE
    INVEHICLE_DIGITAL_TWIN_SERVICE_NAME
    INVEHICLE_DIGITAL_TWIN_SERVICE_VERSION
    INVEHICLE_DIGITAL_TWIN_SERVICE_COMMUNICATION_KIND
    INVEHICLE_DIGITAL_TWIN_SERVICE_COMMUNICATION_REFERENCE

/-- The events every run emits before the outcome of discovery is known:
the server future is created (lines 129 to 131) and discovery is invoked
(line 136). -/
def initialEvents : List Event :=
  [Event.server_future_created PROVIDER_AUTHORITY,
   Event.discover_invoked SERVICE_DISCOVERY_URI
     INVEHICLE_DIGITAL_TWIN_SERVICE_NAMESPACE
     INVEHICLE_DIGITAL_TWIN_SERVICE_NAME
     INVEHICLE_DIGITAL_TWIN_SERVICE_VERSION
     INVEHICLE_DIGITAL_TWIN_SERVICE_COMMUNICATION_KIND
     INVEHICLE_DIGITAL_TWIN_SERVICE_COMMUNICATION_REFERENCE]

/-- The function `main` (`main.rs` lines 113 to 159). The `serve` future is built on
lines 129 to 131 but, being a Rust `async fn` future, performs no work (in
particular, no bind and no listen) until it is awaited on line 150, after
discovery and registration; the `bind_and_listen` event is therefore
emitted at the await, not at the builder call. Errors from discovery
(line 144) and from registration (line 149) propagate out of `main` by `?`
with no second attempt. -/
def mainRun (env : Env) : RunResult :=
  match mainDiscover env with
  | Except.error s => ⟨initialEvents, MainOutcome.errored s⟩
  | Except.ok invehicle_digital_twin_uri =>
    let reg := register_entity env.registry invehicle_digital_twin_uri mainProviderUri
    let ev2 : List Event := initialEvents
      ++ [Event.register_invoked invehicle_digital_twin_uri mainProviderUri]
      ++ reg.2.map Event.remote_register_call
    match reg.1 with
    | Except.error s => ⟨ev2, MainOutcome.errored s⟩
    | Except.ok _ =>
      let ev3 : List Event := ev2 ++ [Event.bind_and_listen PROVIDER_AUTHORITY]
      match env.bind PROVIDER_AUTHORITY with
      | Except.error e => ⟨ev3, MainOutcome.errored (Status.internal e)⟩
      | Except.ok _ => ⟨ev3, MainOutcome.serving⟩

/-- The run reached the long-lived Ready (serving) state. -/
def reachesReady (env : Env) : Prop := (mainRun env).outcome = MainOutcome.serving

instance (env : Env) : Decidable (reachesReady env) := by
  unfold reachesReady
  infer_instance

/-- Event classifiers, used to count invocations along a trace. -/
def Event.isDiscoverInvocation : Event → Bool
  | Event.discover_invoked _ _ _ _ _ _ => true
  | _ => false

def Event.isRegisterInvocation : Event → Bool
  | Event.register_invoked _ _ => true
  | _ => false

def Event.isRemoteRegisterCall : Event → Bool
  | Event.remote_register_call _ => true
  | _ => false

def Event.isBind : Event → Bool
  | Event.bind_and_listen _ => true
  | _ => false

/-- How many events of a trace satisfy the classifier. -/
def countEvents (p : Event → Bool) (es : List Event) : Nat := (es.filter p).length

/-- The single register request `register_entity` builds for a given
provider uri (lines 89 to 100 and 105 to 107). -/
def trailerRegisterRequest (provider_uri : String) : RegisterRequest :=
  { entity_access_info_list := [
    { name := trailer_v1.trailer.is_trailer_connected.NAME
      id := trailer_v1.trailer.is_trailer_connected.ID
      description := trailer_v1.trailer.is_trailer_connected.DESCRIPTION
      endpoint_info_list := [
        { protocol := GRPC_PROTOCOL
          operations := [OPERATION_GET]
          uri := provider_uri
          context := trailer_v1.trailer.is_trailer_connected.ID }] }] }

/-- Unfolding of `register_entity` with its let bindings resolved. -/
theorem register_entity_eq (env : RegistryEnv) (uri provider_uri : String) :
    register_entity env uri provider_uri =
      match env.connect uri with
      | Except.error e => (Except.error (Status.internal e), [])
      | Except.ok _ =>
        match env.register (trailerRegisterRequest provider_uri) with
        | Except.error s => (Except.error s, [trailerRegisterRequest provider_uri])
        | Except.ok _ => (Except.ok (), [trailerRegisterRequest provider_uri]) := rfl

/-- An invocation of `register_entity` issues at most one remote call. -/
theorem register_entity_calls_length (env : RegistryEnv) (uri provider_uri : String) :
    (register_entity env uri provider_uri).2.length ≤ 1 := by
  rw [register_entity_eq]
  cases env.connect uri
  · simp
  · cases env.register (trailerRegisterRequest provider_uri) <;> simp

/-! Concrete environments used as test inputs for the theorems below. -/

/-- A broker that accepts the connection and answers every discover request
with the given optional service. -/
def chariottReturning (svc : Option ServiceMetadata) : ChariottEnv :=
  { connect := fun _ => Except.ok ()
    discover := fun _ => Except.ok ⟨svc⟩ }

/-- A broker whose connection attempt fails. -/
def unreachableBroker : ChariottEnv :=
  { connect := fun _ => Except.error "transport error"
    discover := fun _ => Except.ok ⟨none⟩ }

/-- A broker that accepts the connection but whose remote discover call
fails. -/
def failingDiscoverCall : ChariottEnv :=
  { connect := fun _ => Except.ok ()
    discover := fun _ => Except.error "transport error" }

/-- A registry that accepts the connection and every registration. -/
def okRegistry : RegistryEnv :=
  { connect := fun _ => Except.ok ()
    register := fun _ => Except.ok () }

/-- A registry that accepts the connection but rejects every registration
with a gRPC status. -/
def rejectingRegistry : RegistryEnv :=
  { connect := fun _ => Except.ok ()
    register := fun _ => Except.error ⟨StatusCode.other 3, "invalid argument"⟩ }

/-- A service whose transport metadata matches the expected constants. -/
def matchingService : ServiceMetadata :=
  { uri := "http://host:9000"
    communication_kind := INVEHICLE_DIGITAL_TWIN_SERVICE_COMMUNICATION_KIND
    communication_reference := INVEHICLE_DIGITAL_TWIN_SERVICE_COMMUNICATION_REFERENCE }

/-- A service whose communication kind differs from the expected constant
while its communication reference matches. -/
def kindMismatchService : ServiceMetadata :=
  { uri := "http://host:9000"
    communication_kind := "rest"
    communication_reference := INVEHICLE_DIGITAL_TWIN_SERVICE_COMMUNICATION_REFERENCE }

/-- A service where both transport fields differ from the expected
constants. -/
def bothMismatchService : ServiceMetadata :=
  { uri := "http://host:9000"
    communication_kind := "rest"
    communication_reference := "R" }

/-- The fully healthy environment: matching service, accepting registry,
bindable address. -/
def envHappy : Env :=
  { chariott := chariottReturning (some matchingService)
    registry := okRegistry
    bind := fun _ => Except.ok () }

/-- Healthy broker and registry, but binding the local address fails. -/
def envBindFails : Env :=
  { chariott := chariottReturning (some matchingService)
    registry := okRegistry
    bind := fun _ => Except.error "address already in use" }

/-- The broker offers a service whose communication kind is wrong. -/
def envKindMismatch : Env :=
  { chariott := chariottReturning (some kindMismatchService)
    registry := okRegistry
    bind := fun _ => Except.ok () }

/-- The broker is unreachable. -/
def envDiscoverFails : Env :=
  { chariott := unreachableBroker
    registry := okRegistry
    bind := fun _ => Except.ok () }

/-- Discovery succeeds but the registry rejects the registration. -/
def envRegisterFails : Env :=
  { chariott := chariottReturning (some matchingService)
    registry := rejectingRegistry
    bind := fun _ => Except.ok () }

/-! Case equations for `mainRun`. -/

/-- When discovery fails, the run stops with that error and only the
initial events happened. -/
theorem mainRun_of_discover_error (env : Env) (s : Status)
    (hd : mainDiscover env = Except.error s) :
    mainRun env = ⟨initialEvents, MainOutcome.errored s⟩ := by
  unfold mainRun
  rw [hd]

/-- When discovery succeeds and registration fails, the run stops with the
registration error; the trace holds the initial events, the registration
invocation with exactly the discovered uri, and the remote register calls
that invocation issued. -/
theorem mainRun_of_register_error (env : Env) (u : String) (s : Status)
    (hd : mainDiscover env = Except.ok u)
    (hr : (register_entity env.registry u mainProviderUri).1 = Except.error s) :
    mainRun env = ⟨initialEvents ++ [Event.register_invoked u mainProviderUri]
      ++ (register_entity env.registry u mainProviderUri).2.map Event.remote_register_call,
      MainOutcome.errored s⟩ := by
  unfold mainRun
  rw [hd]
  simp only [hr]

/-- When discovery and registration succeed but binding the listen address
fails at the await of the server future, the run stops with an error; the
bind event is the last event. -/
theorem mainRun_of_bind_error (env : Env) (u : String) (e : String)
    (hd : mainDiscover env = Except.ok u)
    (hr : (register_entity env.registry u mainProviderUri).1 = Except.ok ())
    (hb : env.bind PROVIDER_AUTHORITY = Except.error e) :
    mainRun env = ⟨initialEvents ++ [Event.register_invoked u mainProviderUri]
      ++ (register_entity env.registry u mainProviderUri).2.map Event.remote_register_call
      ++ [Event.bind_and_listen PROVIDER_AUTHORITY],
      MainOutcome.errored (Status.internal e)⟩ := by
  unfold mainRun
  rw [hd]
  simp only [hr, hb]

/-- When discovery, registration and the bind all succeed, the run is
serving and the bind event is the last event. -/
theorem mainRun_of_success (env : Env) (u : String)
    (hd : mainDiscover env = Except.ok u)
    (hr : (register_entity env.registry u mainProviderUri).1 = Except.ok ())
    (hb : env.bind PROVIDER_AUTHORITY = Except.ok ()) :
    mainRun env = ⟨initialEvents ++ [Event.register_invoked u mainProviderUri]
      ++ (register_entity env.registry u mainProviderUri).2.map Event.remote_register_call
      ++ [Event.bind_and_listen PROVIDER_AUTHORITY],
      MainOutcome.serving⟩ := by
  unfold mainRun
  rw [hd]
  simp only [hr, hb]

/-- C5: for every identity tuple, when the connection succeeds and the
discover response of the broker contains no service,
`discover_service_using_chariott` returns the not-found `Status` error —
never success (so never a successful empty uri), and, being a total Lean
function, it cannot panic. -/
theorem c5_absent_service_not_found (env : ChariottEnv)
    (curi ns n v k r : String)
    (hc : env.connect curi = Except.ok ())
    (hd : env.discover ⟨ns, n, v⟩ = Except.ok ⟨none⟩) :
    discover_service_using_chariott env curi ns n v k r
      = Except.error (Status.not_found NOT_FOUND_MSG) := by
  simp [discover_service_using_chariott, hc, hd]

/-- C5 witness: the theorem applied to a broker that returns no service,
at the identity tuple `main` uses. -/
theorem c5_witness :
    discover_service_using_chariott (chariottReturning none) SERVICE_DISCOVERY_URI
      INVEHICLE_DIGITAL_TWIN_SERVICE_NAMESPACE
      INVEHICLE_DIGITAL_TWIN_SERVICE_NAME
      INVEHICLE_DIGITAL_TWIN_SERVICE_VERSION
      INVEHICLE_DIGITAL_TWIN_SERVICE_COMMUNICATION_KIND
      INVEHICLE_DIGITAL_TWIN_SERVICE_COMMUNICATION_REFERENCE
      = Except.error (Status.not_found NOT_FOUND_MSG) :=
  c5_absent_service_not_found (chariottReturning none) _ _ _ _ _ _ rfl rfl

/-- C6: for every discovered service whose communication kind and
communication reference both equal the expected values,
`discover_service_using_chariott` returns success carrying the service uri
unmodified; the result type carries a single uri, not a list. -/
theorem c6_exact_match_returns_uri (env : ChariottEnv)
    (curi ns n v k r : String) (service : ServiceMetadata)
    (hc : env.connect curi = Except.ok ())
    (hd : env.discover ⟨ns, n, v⟩ = Except.ok ⟨some service⟩)
    (hk : service.communication_kind = k)
    (hr : service.communication_reference = r) :
    discover_service_using_chariott env curi ns n v k r
      = Except.ok service.uri := by
  simp [discover_service_using_chariott, hc, hd, hk, hr]

/-- C6 witness: the theorem applied to a broker offering the matching
service, at the identity tuple `main` uses. -/
theorem c6_witness :
    discover_service_using_chariott (chariottReturning (some matchingService))
      SERVICE_DISCOVERY_URI
      INVEHICLE_DIGITAL_TWIN_SERVICE_NAMESPACE
      INVEHICLE_DIGITAL_TWIN_SERVICE_NAME
      INVEHICLE_DIGITAL_TWIN_SERVICE_VERSION
      INVEHICLE_DIGITAL_TWIN_SERVICE_COMMUNICATION_KIND
      INVEHICLE_DIGITAL_TWIN_SERVICE_COMMUNICATION_REFERENCE
      = Except.ok "http://host:9000" :=
  c6_exact_match_returns_uri (chariottReturning (some matchingService))
    _ _ _ _ _ _ matchingService rfl rfl rfl rfl

/-- C7 counterexample: an unreachable broker and a failing remote discover
call whose underlying errors carry the same text produce byte-identical
`Status` values — the two failure kinds are not distinguishable in the
returned error. -/
theorem c7_counterexample :
    discover_service_using_chariott unreachableBroker SERVICE_DISCOVERY_URI
      INVEHICLE_DIGITAL_TWIN_SERVICE_NAMESPACE
      INVEHICLE_DIGITAL_TWIN_SERVICE_NAME
      INVEHICLE_DIGITAL_TWIN_SERVICE_VERSION
      INVEHICLE_DIGITAL_TWIN_SERVICE_COMMUNICATION_KIND
      INVEHICLE_DIGITAL_TWIN_SERVICE_COMMUNICATION_REFERENCE
      = Except.error (Status.internal "transport error")
    ∧ discover_service_using_chariott failingDiscoverCall SERVICE_DISCOVERY_URI
      INVEHICLE_DIGITAL_TWIN_SERVICE_NAMESPACE
      INVEHICLE_DIGITAL_TWIN_SERVICE_NAME
      INVEHICLE_DIGITAL_TWIN_SERVICE_VERSION
      INVEHICLE_DIGITAL_TWIN_SERVICE_COMMUNICATION_KIND
      INVEHICLE_DIGITAL_TWIN_SERVICE_COMMUNICATION_REFERENCE
      = Except.error (Status.internal "transport error") :=
  ⟨rfl, rfl⟩

/-- C7 amended: both the unreachable-broker case and the failing remote
discover call are mapped to a `Status` with code `internal` wrapping the
underlying error message; the code carries no marker distinguishing the
two failure kinds. -/
theorem c7_both_failures_internal (env : ChariottEnv)
    (curi ns n v k r m : String) :
    (env.connect curi = Except.error m →
      discover_service_using_chariott env curi ns n v k r
        = Except.error (Status.internal m))
    ∧ (env.connect curi = Except.ok () → env.discover ⟨ns, n, v⟩ = Except.error m →
      discover_service_using_chariott env curi ns n v k r
        = Except.error (Status.internal m)) := by
  constructor
  · intro hc
    simp [discover_service_using_chariott, hc]
  · intro hc hd
    simp [discover_service_using_chariott, hc, hd]

/-- C7 witness: both branches of the amended theorem applied at concrete
environments. -/
theorem c7_witness :
    discover_service_using_chariott unreachableBroker "u" "a" "b" "c" "d" "e"
      = Except.error (Status.internal "transport error")
    ∧ discover_service_using_chariott failingDiscoverCall "u" "a" "b" "c" "d" "e"
      = Except.error (Status.internal "transport error") :=
  ⟨(c7_both_failures_internal unreachableBroker "u" "a" "b" "c" "d" "e" "transport error").1 rfl,
   (c7_both_failures_internal failingDiscoverCall "u" "a" "b" "c" "d" "e" "transport error").2 rfl rfl⟩

/-- C10: the rejection of a service with incompatible transport metadata
and the absent-service case both return a `Status` whose code is
`not_found`, so a caller cannot tell the two apart by status code alone. -/
theorem c10_mismatch_and_absent_share_code (env : ChariottEnv)
    (curi ns n v k r : String) (service : ServiceMetadata)
    (hc : env.connect curi = Except.ok ()) :
    (env.discover ⟨ns, n, v⟩ = Except.ok ⟨none⟩ →
      ∃ e, discover_service_using_chariott env curi ns n v k r = Except.error e
        ∧ e.code = StatusCode.not_found)
    ∧ (env.discover ⟨ns, n, v⟩ = Except.ok ⟨some service⟩ →
        service.communication_kind ≠ k → service.communication_reference ≠ r →
      ∃ e, discover_service_using_chariott env curi ns n v k r = Except.error e
        ∧ e.code = StatusCode.not_found) := by
  constructor
  · intro hd
    exact ⟨Status.not_found NOT_FOUND_MSG,
      by simp [discover_service_using_chariott, hc, hd], rfl⟩
  · intro hd hk hr
    refine ⟨Status.not_found MISMATCH_MSG, ?_, rfl⟩
    simp [discover_service_using_chariott, hc, hd, hk, hr]

/-- C10 witness: both branches of the theorem applied at concrete
environments: the broker with no service and the broker with a service
mismatching both fields. -/
theorem c10_witness :
    (∃ e, discover_service_using_chariott (chariottReturning none)
        SERVICE_DISCOVERY_URI
        INVEHICLE_DIGITAL_TWIN_SERVICE_NAMESPACE
        INVEHICLE_DIGITAL_TWIN_SERVICE_NAME
        INVEHICLE_DIGITAL_TWIN_SERVICE_VERSION
        INVEHICLE_DIGITAL_TWIN_SERVICE_COMMUNICATION_KIND
        INVEHICLE_DIGITAL_TWIN_SERVICE_COMMUNICATION_REFERENCE
        = Except.error e ∧ e.code = StatusCode.not_found)
    ∧ (∃ e, discover_service_using_chariott (chariottReturning (some bothMismatchService))
        SERVICE_DISCOVERY_URI
        INVEHICLE_DIGITAL_TWIN_SERVICE_NAMESPACE
        INVEHICLE_DIGITAL_TWIN_SERVICE_NAME
        INVEHICLE_DIGITAL_TWIN_SERVICE_VERSION
        INVEHICLE_DIGITAL_TWIN_SERVICE_COMMUNICATION_KIND
        INVEHICLE_DIGITAL_TWIN_SERVICE_COMMUNICATION_REFERENCE
        = Except.error e ∧ e.code = StatusCode.not_found) :=
  ⟨(c10_mismatch_and_absent_share_code (chariottReturning none) _ _ _ _ _ _
      bothMismatchService rfl).1 rfl,
   (c10_mismatch_and_absent_share_code (chariottReturning (some bothMismatchService))
      _ _ _ _ _ _ bothMismatchService rfl).2 rfl (by decide) (by decide)⟩

/-- C1: the code evaluated at a failing input. The broker offers a service
whose communication kind ("rest") differs from the expected constant while
its communication reference matches. The Rust condition on lines 69 to 71
joins the two mismatch tests with `&&`, so the one-field mismatch passes
the check: discovery returns success with the service uri instead of an
error, and the run goes on to invoke registration with that uri. -/
theorem c1_one_field_mismatch_is_accepted :
    kindMismatchService.communication_kind
      ≠ INVEHICLE_DIGITAL_TWIN_SERVICE_COMMUNICATION_KIND
    ∧ mainDiscover envKindMismatch = Except.ok "http://host:9000"
    ∧ Event.register_invoked "http://host:9000" mainProviderUri
        ∈ (mainRun envKindMismatch).events := by
  refine ⟨by decide, rfl, ?_⟩
  rw [mainRun_of_success envKindMismatch "http://host:9000" rfl rfl rfl]
  simp

/-- C9: whenever the connection to the registry succeeds, an invocation of
`register_entity` issues exactly one remote register call; its request
carries the full descriptor list, here exactly one `EntityAccessInfo`,
whose single endpoint lists exactly the operation `Get` and points at the
provider uri. -/
theorem c9_single_batched_register_call (env : RegistryEnv)
    (uri provider_uri : String)
    (hc : env.connect uri = Except.ok ()) :
    ∃ req, (register_entity env uri provider_uri).2 = [req]
      ∧ req.entity_access_info_list.length = 1
      ∧ ∀ e ∈ req.entity_access_info_list,
          e.endpoint_info_list.length = 1
          ∧ ∀ ep ∈ e.endpoint_info_list,
              ep.operations = [OPERATION_GET] ∧ ep.uri = provider_uri := by
  refine ⟨trailerRegisterRequest provider_uri, ?_, rfl, ?_⟩
  · rw [register_entity_eq, hc]
    cases env.register (trailerRegisterRequest provider_uri) <;> rfl
  · intro e he
    simp only [trailerRegisterRequest, List.mem_singleton] at he
    subst he
    refine ⟨rfl, ?_⟩
    intro ep hep
    simp only [List.mem_singleton] at hep
    subst hep
    exact ⟨rfl, rfl⟩

/-- C9 witness: the theorem applied to the accepting registry at the
discovered uri and the provider uri of `main`. -/
theorem c9_witness :
    ∃ req, (register_entity okRegistry "http://host:9000" mainProviderUri).2 = [req]
      ∧ req.entity_access_info_list.length = 1
      ∧ ∀ e ∈ req.entity_access_info_list,
          e.endpoint_info_list.length = 1
          ∧ ∀ ep ∈ e.endpoint_info_list,
              ep.operations = [OPERATION_GET] ∧ ep.uri = mainProviderUri :=
  c9_single_batched_register_call okRegistry "http://host:9000" mainProviderUri rfl

/-- If a run contains a registration invocation, then discovery succeeded
with exactly the uri the invocation carries, and its provider uri is
mainProviderUri. -/
theorem register_invoked_mem (env : Env) (u p : String)
    (hmem : Event.register_invoked u p ∈ (mainRun env).events) :
    mainDiscover env = Except.ok u ∧ p = mainProviderUri := by
  cases hd : mainDiscover env with
  | error s =>
    rw [mainRun_of_discover_error env s hd] at hmem
    simp [initialEvents] at hmem
  | ok u0 =>
    have key : u = u0 ∧ p = mainProviderUri := by
      cases hr : (register_entity env.registry u0 mainProviderUri).1 with
      | error s =>
        rw [mainRun_of_register_error env u0 s hd hr] at hmem
        simpa [initialEvents, List.mem_append, List.mem_map] using hmem
      | ok x =>
        cases x
        cases hb : env.bind PROVIDER_AUTHORITY with
        | error e =>
          rw [mainRun_of_bind_error env u0 e hd hr hb] at hmem
          simpa [initialEvents, List.mem_append, List.mem_map] using hmem
        | ok y =>
          cases y
          rw [mainRun_of_success env u0 hd hr hb] at hmem
          simpa [initialEvents, List.mem_append, List.mem_map] using hmem
    obtain ⟨h1, h2⟩ := key
    subst h1
    exact ⟨rfl, h2⟩

/-- C2 counterexample: in the environment where the broker and the registry
behave and only binding the local address fails, both the discovery call
and the registration call succeed, yet the run never reaches the serving
state — because the bind is deferred to after registration, Ready is not
equivalent to the success of the two calls. -/
theorem c2_counterexample :
    mainDiscover envBindFails = Except.ok "http://host:9000"
    ∧ (register_entity envBindFails.registry "http://host:9000" mainProviderUri).1
        = Except.ok ()
    ∧ ¬ reachesReady envBindFails := by
  refine ⟨rfl, rfl, ?_⟩
  intro h
  unfold reachesReady at h
  rw [mainRun_of_bind_error envBindFails "http://host:9000" "address already in use"
    rfl rfl rfl] at h
  simp at h

/-- C2 amended: the run reaches Ready exactly when discovery, registration
and the (deferred) bind of the listen address all succeed; moreover every
registration invocation in any trace carries exactly the uri that
discovery returned — so registration is never invoked before discovery has
returned successfully — together with the fixed provider uri. -/
theorem c2_ready_iff_discover_register_bind (env : Env) :
    (reachesReady env ↔
      ∃ u, mainDiscover env = Except.ok u
        ∧ (register_entity env.registry u mainProviderUri).1 = Except.ok ()
        ∧ env.bind PROVIDER_AUTHORITY = Except.ok ())
    ∧ ∀ u p, Event.register_invoked u p ∈ (mainRun env).events →
        mainDiscover env = Except.ok u ∧ p = mainProviderUri := by
  refine ⟨⟨?_, ?_⟩, fun u p h => register_invoked_mem env u p h⟩
  · intro h
    unfold reachesReady at h
    cases hd : mainDiscover env with
    | error s =>
      rw [mainRun_of_discover_error env s hd] at h
      simp at h
    | ok u0 =>
      cases hr : (register_entity env.registry u0 mainProviderUri).1 with
      | error s =>
        rw [mainRun_of_register_error env u0 s hd hr] at h
        simp at h
      | ok x =>
        cases x
        cases hb : env.bind PROVIDER_AUTHORITY with
        | error e =>
          rw [mainRun_of_bind_error env u0 e hd hr hb] at h
          simp at h
        | ok y =>
          cases y
          exact ⟨u0, rfl, hr, rfl⟩
  · rintro ⟨u, hd, hr, hb⟩
    unfold reachesReady
    rw [mainRun_of_success env u hd hr hb]

/-- C2 witness: the amended theorem applied at the healthy environment. -/
theorem c2_witness : reachesReady envHappy :=
  (c2_ready_iff_discover_register_bind envHappy).1.mpr
    ⟨"http://host:9000", rfl, rfl, rfl⟩

/-- C3: the code evaluated at the failing input, the fully healthy run. The
serve future is created before discovery but — being a lazy Rust future —
binds and listens only when awaited on line 150, after registration: the
bind/listen event is the last event of the trace, not the first, so the
listener cannot queue connections during discovery and registration, while
the log line of line 132 claims it is already listening. -/
theorem c3_bind_happens_after_register :
    (mainRun envHappy).events
      = initialEvents ++ [Event.register_invoked "http://host:9000" mainProviderUri]
        ++ [Event.remote_register_call (trailerRegisterRequest mainProviderUri)]
        ++ [Event.bind_and_listen PROVIDER_AUTHORITY]
    ∧ (mainRun envHappy).events.getLast?
        = some (Event.bind_and_listen PROVIDER_AUTHORITY)
    ∧ countEvents Event.isBind initialEvents = 0 :=
  ⟨rfl, rfl, rfl⟩

/-- Counting distributes over trace concatenation. -/
theorem countEvents_append (p : Event → Bool) (l1 l2 : List Event) :
    countEvents p (l1 ++ l2) = countEvents p l1 + countEvents p l2 := by
  simp [countEvents, List.filter_append]

/-- Remote register call events contribute nothing to a count of other
event kinds. -/
theorem countEvents_map_remote_eq_zero (p : Event → Bool)
    (h : ∀ r, p (Event.remote_register_call r) = false)
    (l : List RegisterRequest) :
    countEvents p (l.map Event.remote_register_call) = 0 := by
  induction l with
  | nil => rfl
  | cons a t ih => simpa [countEvents, List.filter_cons, h a] using ih

/-- Counting the remote register call events of a mapped call list gives
its length. -/
theorem countEvents_remote_map (l : List RegisterRequest) :
    countEvents Event.isRemoteRegisterCall (l.map Event.remote_register_call)
      = l.length := by
  induction l with
  | nil => rfl
  | cons a t ih =>
    simpa [countEvents, List.filter_cons, Event.isRemoteRegisterCall] using ih

/-- C4: a failure of the discovery step or of the registration step is
fatal: the run ends with that very error, which makes the Rust runtime
exit the process with the non-zero code 1, and neither step is retried —
the trace holds exactly one discovery invocation, a registration
invocation only when discovery succeeded, at most one remote register
call, and no second attempt of anything. -/
theorem c4_failure_is_fatal_and_not_retried (env : Env) :
    (∀ s, mainDiscover env = Except.error s →
      (mainRun env).outcome = MainOutcome.errored s
      ∧ (mainRun env).outcome.exitCode = some 1
      ∧ countEvents Event.isDiscoverInvocation (mainRun env).events = 1
      ∧ countEvents Event.isRegisterInvocation (mainRun env).events = 0
      ∧ countEvents Event.isRemoteRegisterCall (mainRun env).events = 0)
    ∧ (∀ u s, mainDiscover env = Except.ok u →
        (register_entity env.registry u mainProviderUri).1 = Except.error s →
      (mainRun env).outcome = MainOutcome.errored s
      ∧ (mainRun env).outcome.exitCode = some 1
      ∧ countEvents Event.isDiscoverInvocation (mainRun env).events = 1
      ∧ countEvents Event.isRegisterInvocation (mainRun env).events = 1
      ∧ countEvents Event.isRemoteRegisterCall (mainRun env).events ≤ 1) := by
  constructor
  · intro s hd
    rw [mainRun_of_discover_error env s hd]
    exact ⟨rfl, rfl, rfl, rfl, rfl⟩
  · intro u s hd hr
    rw [mainRun_of_register_error env u s hd hr]
    refine ⟨rfl, rfl, ?_, ?_, ?_⟩
    · rw [countEvents_append, countEvents_append,
        countEvents_map_remote_eq_zero _ (fun r => rfl)]
      rfl
    · rw [countEvents_append, countEvents_append,
        countEvents_map_remote_eq_zero _ (fun r => rfl)]
      rfl
    · rw [countEvents_append, countEvents_append, countEvents_remote_map]
      have h1 : countEvents Event.isRemoteRegisterCall initialEvents = 0 := rfl
      have h2 : countEvents Event.isRemoteRegisterCall
          [Event.register_invoked u mainProviderUri] = 0 := rfl
      rw [h1, h2]
      simpa using register_entity_calls_length env.registry u mainProviderUri

/-- C4 witness: the theorem applied at the unreachable broker and at the
rejecting registry. -/
theorem c4_witness :
    ((mainRun envDiscoverFails).outcome.exitCode = some 1
      ∧ countEvents Event.isRegisterInvocation (mainRun envDiscoverFails).events = 0)
    ∧ ((mainRun envRegisterFails).outcome.exitCode = some 1
      ∧ countEvents Event.isDiscoverInvocation (mainRun envRegisterFails).events = 1) :=
  ⟨⟨((c4_failure_is_fatal_and_not_retried envDiscoverFails).1
      (Status.internal "transport error") rfl).2.1,
    ((c4_failure_is_fatal_and_not_retried envDiscoverFails).1
      (Status.internal "transport error") rfl).2.2.2.1⟩,
   ⟨((c4_failure_is_fatal_and_not_retried envRegisterFails).2
      "http://host:9000" ⟨StatusCode.other 3, "invalid argument"⟩ rfl rfl).2.1,
    ((c4_failure_is_fatal_and_not_retried envRegisterFails).2
      "http://host:9000" ⟨StatusCode.other 3, "invalid argument"⟩ rfl rfl).2.2.1⟩⟩

set_option maxRecDepth 10000 in
/-- C8: the code evaluated at the failing input, the identity constants
`main` uses. The Rust error strings on lines 67 and 72 to 74 are plain
literals, not format invocations, so the errors carry the placeholder text
verbatim: the not-found message contains the placeholder for the namespace
but not the actual namespace, name or version attempted, and the mismatch
message does not contain the expected communication kind either. -/
theorem c8_error_messages_lack_the_tuple :
    discover_service_using_chariott (chariottReturning none) SERVICE_DISCOVERY_URI
      INVEHICLE_DIGITAL_TWIN_SERVICE_NAMESPACE
      INVEHICLE_DIGITAL_TWIN_SERVICE_NAME
      INVEHICLE_DIGITAL_TWIN_SERVICE_VERSION
      INVEHICLE_DIGITAL_TWIN_SERVICE_COMMUNICATION_KIND
      INVEHICLE_DIGITAL_TWIN_SERVICE_COMMUNICATION_REFERENCE
      = Except.error (Status.not_found NOT_FOUND_MSG)
    ∧ discover_service_using_chariott (chariottReturning (some bothMismatchService))
      SERVICE_DISCOVERY_URI
      INVEHICLE_DIGITAL_TWIN_SERVICE_NAMESPACE
      INVEHICLE_DIGITAL_TWIN_SERVICE_NAME
      INVEHICLE_DIGITAL_TWIN_SERVICE_VERSION
      INVEHICLE_DIGITAL_TWIN_SERVICE_COMMUNICATION_KIND
      INVEHICLE_DIGITAL_TWIN_SERVICE_COMMUNICATION_REFERENCE
      = Except.error (Status.not_found MISMATCH_MSG)
    ∧ "\x7bnamespace\x7d".data <:+: NOT_FOUND_MSG.data
    ∧ ¬ INVEHICLE_DIGITAL_TWIN_SERVICE_NAMESPACE.data <:+: NOT_FOUND_MSG.data
    ∧ ¬ INVEHICLE_DIGITAL_TWIN_SERVICE_NAME.data <:+: NOT_FOUND_MSG.data
    ∧ ¬ INVEHICLE_DIGITAL_TWIN_SERVICE_VERSION.data <:+: NOT_FOUND_MSG.data
    ∧ ¬ INVEHICLE_DIGITAL_TWIN_SERVICE_COMMUNICATION_KIND.data <:+: MISMATCH_MSG.data := by
  refine ⟨rfl, rfl, ?_, ?_, ?_, ?_, ?_⟩ <;> decide

end TrailerConnectedProvider
